import Mathlib

/-!
Verification development for the `caddy-tailscale-auth` Caddy module
(`tailscale.go`).  The Go source is shallowly embedded: Go maps become
association lists with overwrite-on-insert, the remote Tailscale HTTP
client becomes an explicit `FetchOutcome` oracle passed to the functions
that would perform the network call, and the filesystem used by the
snapshot store becomes an explicit `FS` state.  Every definition mirrors
the corresponding Go function of `tailscale.go`.
-/

namespace CaddyTailscaleAuth

/-- Device mirrors the Go struct `Device` (tailscale.go); one directory
entry decoded from the Tailscale devices API. -/
structure Device where
  addresses : List String
  authorized : Bool
  blocksIncomingConnections : Bool
  clientVersion : String
  created : String
  expires : String
  hostname : String
  id : String
  isExternal : Bool
  keyExpiryDisabled : Bool
  lastSeen : String
  machineKey : String
  name : String
  nodeID : String
  nodeKey : String
  os : String
  tailnetLockError : String
  tailnetLockKey : String
  updateAvailable : Bool
  user : String
deriving DecidableEq, Repr

/-- DevicesResponse mirrors the Go struct `DevicesResponse`: the decoded
body of the bulk devices endpoint. -/
structure DevicesResponse where
  devices : List Device
deriving DecidableEq, Repr

/-- The value type of the Go map `map[string]*Device`: a present key can
still hold a nil pointer (`none`), e.g. after decoding a JSON `null`. -/
abbrev DevSlot := Option Device

/-- IPMap models the Go map `map[string]*Device` as an association list;
`lookupIP` is the authoritative access. -/
abbrev IPMap := List (String × DevSlot)

/-- DeviceCache mirrors the Go struct `DeviceCache`: the snapshot mapping
plus the freshness marker `LastUpdate`. -/
structure DeviceCache where
  ipToDevice : IPMap
  lastUpdate : String
deriving DecidableEq, Repr

/-- Map read `m[k]`: `none` when the key is absent, `some slot` when
present (the slot itself may be a nil pointer `none`). -/
def lookupIP : IPMap → String → Option DevSlot
  | [], _ => none
  | (k, v) :: rest, a => if k = a then some v else lookupIP rest a

/-- Map write `m[k] = v`: overwrites any previous binding of `k`. -/
def insertIP (m : IPMap) (k : String) (v : DevSlot) : IPMap :=
  (k, v) :: m.filter (fun p => ¬ p.1 = k)

/-- The cache-population loop of `refreshDeviceCache`: for each fetched
device, for each of its addresses, `IPToDevice[addr] = device`. -/
def buildIPMap (devices : List Device) : IPMap :=
  devices.foldl (fun m d => d.addresses.foldl (fun m2 a => insertIP m2 a (some d)) m) []

/-- The decoded-or-not body of an HTTP response, as seen by
`json.Unmarshal`: either it decodes to a value of the expected type or
decoding fails. -/
inductive RespBody (β : Type) where
  | malformed
  | decoded (val : β)
deriving DecidableEq, Repr

/-- The outcome of one remote HTTP call, the oracle replacing
`client.Do`: either the request/transport/body-read fails (`netError`),
or a response arrives with a status code, a `Date` header value, and a
body. -/
inductive FetchOutcome (β : Type) where
  | netError
  | response (status : Nat) (dateHeader : String) (body : RespBody β)
deriving DecidableEq, Repr

/-- refreshDeviceCache mirrors the Go func `refreshDeviceCache`: one
remote call (the `out` oracle); any failure (transport error, status
other than 200, decode failure) returns the error before the cache is
touched; on success the map is cleared and rebuilt from the fetched
devices and `LastUpdate` is set from the response `Date` header.  The
trailing `saveDeviceCache` call only logs its error, so it does not
affect this function's result; persistence is modelled separately. -/
def refreshDeviceCache (cache : DeviceCache) (out : FetchOutcome DevicesResponse) :
    Except String Unit × DeviceCache :=
  match out with
  | .netError => (.error "failed to make request", cache)
  | .response status date body =>
    if status ≠ 200 then
      (.error ("API request failed with status " ++ toString status), cache)
    else
      match body with
      | .malformed => (.error "failed to unmarshal response", cache)
      | .decoded resp =>
        (.ok (), { ipToDevice := buildIPMap resp.devices, lastUpdate := date })

/-- The two error shapes `getDeviceByIP` can return: the wrapped refresh
failure, or the device-not-found-after-refresh error. -/
inductive LookupErr where
  | refreshFailed (msg : String)
  | notFound (ip : String)
deriving DecidableEq, Repr

/-- The observable effect of one `getDeviceByIP` call: its return value,
the cache state afterwards, and how many remote directory calls it made. -/
structure ResolveResult where
  result : Except LookupErr Device
  cache : DeviceCache
  fetchCalls : Nat
deriving Repr

/-- getDeviceByIP mirrors the Go func `getDeviceByIP`: a cache hit with a
non-nil device returns it with no remote call; otherwise the cache is
refreshed (one remote call) and re-checked, a still-missing or nil entry
becoming the not-found error. -/
def getDeviceByIP (cache : DeviceCache) (clientIP : String)
    (out : FetchOutcome DevicesResponse) : ResolveResult :=
  match lookupIP cache.ipToDevice clientIP with
  | some (some d) => ⟨.ok d, cache, 0⟩
  | _ =>
    match refreshDeviceCache cache out with
    | (.error m, c) => ⟨.error (.refreshFailed ("failed to refresh device cache: " ++ m)), c, 1⟩
    | (.ok _, c) =>
      match lookupIP c.ipToDevice clientIP with
      | some (some d) => ⟨.ok d, c, 1⟩
      | _ => ⟨.error (.notFound ("device not found for IP " ++ clientIP ++ " even after cache refresh")), c, 1⟩

/-- The nested `Node` struct of the Go `WhoIsResponse`. -/
structure WhoIsNode where
  id : String
  name : String
  user : String
  tailnet : String
  hostname : String
  clientVersion : String
  os : String
  created : String
  lastSeen : String
  online : Bool
  expired : Bool
  keyExpiry : String
  machineKey : String
  nodeKey : String
  addresses : List String
  tags : List String
deriving DecidableEq, Repr

/-- The nested `UserProfile` struct of the Go `WhoIsResponse`. -/
structure UserProfile where
  id : String
  loginName : String
  displayName : String
  profilePicURL : String
deriving DecidableEq, Repr

/-- WhoIsResponse mirrors the Go struct `WhoIsResponse`: the decoded body
of the whois endpoint. -/
structure WhoIsResponse where
  node : WhoIsNode
  userProfile : UserProfile
  capMap : List (String × List String)
deriving DecidableEq, Repr

/-- getTailscaleUser mirrors the Go func `getTailscaleUser` (stateless
whois variant): one remote call; transport error, status other than 200,
or body-decode failure is an error, otherwise the decoded whois response
is returned. -/
def getTailscaleUser (out : FetchOutcome WhoIsResponse) : Except String WhoIsResponse :=
  match out with
  | .netError => .error "failed to make request"
  | .response status _ body =>
    if status ≠ 200 then .error ("API request failed with status " ++ toString status)
    else
      match body with
      | .malformed => .error "failed to unmarshal response"
      | .decoded w => .ok w

/-- Rendering of a Go bool by `fmt.Sprintf` with the `%t` verb. -/
def boolStr (b : Bool) : String := if b then "true" else "false"

/-- addDeviceHeaders mirrors the Go func `addDeviceHeaders`: the ordered
list of header name/value pairs set on the request.  Only the
`Device-Addresses` pair is conditional (set only when the address list is
non-empty); every other pair is set unconditionally. -/
def addDeviceHeaders (prefixStr : String) (device : Device) : List (String × String) :=
  [(prefixStr ++ "Device-ID", device.id),
   (prefixStr ++ "Device-Name", device.name),
   (prefixStr ++ "Device-User", device.user),
   (prefixStr ++ "Device-Hostname", device.hostname),
   (prefixStr ++ "Device-OS", device.os),
   (prefixStr ++ "Device-Authorized", boolStr device.authorized),
   (prefixStr ++ "Device-NodeID", device.nodeID)]
  ++ (if device.addresses.length > 0 then
        [(prefixStr ++ "Device-Addresses", String.intercalate "," device.addresses)]
      else [])
  ++ [(prefixStr ++ "Device-ClientVersion", device.clientVersion),
      (prefixStr ++ "Device-LastSeen", device.lastSeen),
      (prefixStr ++ "Device-Created", device.created)]

/-- addUserHeaders mirrors the Go func `addUserHeaders` (whois variant):
only the `Node-Addresses` and `Node-Tags` pairs are conditional on their
lists being non-empty. -/
def addUserHeaders (prefixStr : String) (whois : WhoIsResponse) : List (String × String) :=
  [(prefixStr ++ "Node-ID", whois.node.id),
   (prefixStr ++ "Node-Name", whois.node.name),
   (prefixStr ++ "Node-User", whois.node.user),
   (prefixStr ++ "Node-Hostname", whois.node.hostname),
   (prefixStr ++ "Node-OS", whois.node.os),
   (prefixStr ++ "Node-Online", boolStr whois.node.online),
   (prefixStr ++ "Node-Expired", boolStr whois.node.expired),
   (prefixStr ++ "User-ID", whois.userProfile.id),
   (prefixStr ++ "User-LoginName", whois.userProfile.loginName),
   (prefixStr ++ "User-DisplayName", whois.userProfile.displayName)]
  ++ (if whois.node.addresses.length > 0 then
        [(prefixStr ++ "Node-Addresses", String.intercalate "," whois.node.addresses)]
      else [])
  ++ (if whois.node.tags.length > 0 then
        [(prefixStr ++ "Node-Tags", String.intercalate "," whois.node.tags)]
      else [])

/-- The parts of an inbound HTTP request that `getClientIP` reads: the
two forwarding headers and the transport-level peer address. -/
structure Request where
  xForwardedFor : String
  xRealIP : String
  remoteAddr : String
deriving DecidableEq, Repr

/-- Model of Go's `net.SplitHostPort`, simplified: split at the last
colon; a string with no colon is an error (`none`).  (The bracketed-IPv6
special cases of the stdlib are not modelled; no claim depends on
them.) -/
def splitHostPort (s : String) : Option (String × String) :=
  match s.splitOn ":" with
  | [] => none
  | [_] => none
  | p :: ps =>
    some (String.intercalate ":" (List.dropLast (p :: ps)),
          (p :: ps).getLast (List.cons_ne_nil p ps))

/-- getClientIP mirrors the Go func `getClientIP` (cached variant):
first entry of `X-Forwarded-For` (trimmed), else `X-Real-IP`, else the
host part of `RemoteAddr` when it splits, else `RemoteAddr` itself. -/
def getClientIP (r : Request) : String :=
  if r.xForwardedFor ≠ "" then
    match r.xForwardedFor.splitOn "," with
    | first :: _ :: _ => first.trim
    | _ => r.xForwardedFor.trim
  else if r.xRealIP ≠ "" then r.xRealIP
  else
    match splitHostPort r.remoteAddr with
    | some (host, _) => host
    | none => r.remoteAddr

/-- The observable effect of one `ServeHTTP` call: how many times the
downstream handler `next.ServeHTTP` ran, which identity headers were
added to the request, the cache state afterwards, and the number of
remote directory calls. -/
structure ServeResult where
  nextCalls : Nat
  addedHeaders : List (String × String)
  cache : DeviceCache
  fetchCalls : Nat
deriving Repr

/-- serveHTTP mirrors the Go func `ServeHTTP` (cached variant): an
undeterminable client IP or a failed `getDeviceByIP` is logged and the
request proceeds downstream without identity headers; on success the
device headers are added and the request proceeds downstream.  Every
branch invokes the downstream handler exactly once. -/
def serveHTTP (prefixStr : String) (cache : DeviceCache)
    (out : FetchOutcome DevicesResponse) (r : Request) : ServeResult :=
  let clientIP := getClientIP r
  if clientIP = "" then ⟨1, [], cache, 0⟩
  else
    let res := getDeviceByIP cache clientIP out
    match res.result with
    | .error _ => ⟨1, [], res.cache, res.fetchCalls⟩
    | .ok d => ⟨1, addDeviceHeaders prefixStr d, res.cache, res.fetchCalls⟩

/-- A JSON document, the value `json.Marshal` / `json.Unmarshal` work
with.  The byte rendering of a document is kept abstract: the stdlib
printer/parser pair is faithful, so persistence is modelled at the
document level. -/
inductive Json where
  | null
  | str (s : String)
  | bool (b : Bool)
  | arr (elems : List Json)
  | obj (fields : List (String × Json))
deriving Repr

/-- Field access in a decoded JSON object (`encodeDevice` and
`encodeCache` emit each key once, so first-match suffices). -/
def jGetField : List (String × Json) → String → Option Json
  | [], _ => none
  | (k, v) :: rest, fieldName => if k = fieldName then some v else jGetField rest fieldName

/-- json.Marshal of the Go `Device` struct, using its JSON tag names. -/
def encodeDevice (d : Device) : Json :=
  .obj [("addresses", .arr (d.addresses.map (fun s => Json.str s))),
        ("authorized", .bool d.authorized),
        ("blocksIncomingConnections", .bool d.blocksIncomingConnections),
        ("clientVersion", .str d.clientVersion),
        ("created", .str d.created),
        ("expires", .str d.expires),
        ("hostname", .str d.hostname),
        ("id", .str d.id),
        ("isExternal", .bool d.isExternal),
        ("keyExpiryDisabled", .bool d.keyExpiryDisabled),
        ("lastSeen", .str d.lastSeen),
        ("machineKey", .str d.machineKey),
        ("name", .str d.name),
        ("nodeId", .str d.nodeID),
        ("nodeKey", .str d.nodeKey),
        ("os", .str d.os),
        ("tailnetLockError", .str d.tailnetLockError),
        ("tailnetLockKey", .str d.tailnetLockKey),
        ("updateAvailable", .bool d.updateAvailable),
        ("user", .str d.user)]

/-- json.Unmarshal of a string field into a zero-valued Go string: a
missing field or JSON `null` keeps the zero value `""`; a non-string
value is a decode error. -/
def decFieldStr (f : Option Json) : Option String :=
  match f with
  | none => some ""
  | some (.str s) => some s
  | some .null => some ""
  | some _ => none

/-- json.Unmarshal of a bool field into a zero-valued Go bool. -/
def decFieldBool (f : Option Json) : Option Bool :=
  match f with
  | none => some false
  | some (.bool b) => some b
  | some .null => some false
  | some _ => none

/-- json.Unmarshal of the elements of a JSON array into `[]string`
elements (a `null` element decodes to the zero value `""`). -/
def decStrElems : List Json → Option (List String)
  | [] => some []
  | .str s :: rest => (decStrElems rest).map (fun xs => s :: xs)
  | .null :: rest => (decStrElems rest).map (fun xs => "" :: xs)
  | _ => none

/-- json.Unmarshal of a `[]string` field: missing or `null` gives the
nil slice (`[]`); an array decodes elementwise. -/
def decFieldStrList (f : Option Json) : Option (List String) :=
  match f with
  | none => some []
  | some .null => some []
  | some (.arr xs) => decStrElems xs
  | some _ => none

/-- json.Unmarshal of the fields of a JSON object into the Go `Device`
struct: decoding succeeds exactly when every present tagged field has
the expected JSON type (the guard); the decoded struct then takes each
field's value, missing fields keeping their zero values. -/
def decodeDeviceFields (fields : List (String × Json)) : Option Device :=
  if (decFieldStrList (jGetField fields "addresses")).isSome
      && (decFieldBool (jGetField fields "authorized")).isSome
      && (decFieldBool (jGetField fields "blocksIncomingConnections")).isSome
      && (decFieldStr (jGetField fields "clientVersion")).isSome
      && (decFieldStr (jGetField fields "created")).isSome
      && (decFieldStr (jGetField fields "expires")).isSome
      && (decFieldStr (jGetField fields "hostname")).isSome
      && (decFieldStr (jGetField fields "id")).isSome
      && (decFieldBool (jGetField fields "isExternal")).isSome
      && (decFieldBool (jGetField fields "keyExpiryDisabled")).isSome
      && (decFieldStr (jGetField fields "lastSeen")).isSome
      && (decFieldStr (jGetField fields "machineKey")).isSome
      && (decFieldStr (jGetField fields "name")).isSome
      && (decFieldStr (jGetField fields "nodeId")).isSome
      && (decFieldStr (jGetField fields "nodeKey")).isSome
      && (decFieldStr (jGetField fields "os")).isSome
      && (decFieldStr (jGetField fields "tailnetLockError")).isSome
      && (decFieldStr (jGetField fields "tailnetLockKey")).isSome
      && (decFieldBool (jGetField fields "updateAvailable")).isSome
      && (decFieldStr (jGetField fields "user")).isSome then
    some { addresses := (decFieldStrList (jGetField fields "addresses")).getD [],
           authorized := (decFieldBool (jGetField fields "authorized")).getD false,
           blocksIncomingConnections := (decFieldBool (jGetField fields "blocksIncomingConnections")).getD false,
           clientVersion := (decFieldStr (jGetField fields "clientVersion")).getD "",
           created := (decFieldStr (jGetField fields "created")).getD "",
           expires := (decFieldStr (jGetField fields "expires")).getD "",
           hostname := (decFieldStr (jGetField fields "hostname")).getD "",
           id := (decFieldStr (jGetField fields "id")).getD "",
           isExternal := (decFieldBool (jGetField fields "isExternal")).getD false,
           keyExpiryDisabled := (decFieldBool (jGetField fields "keyExpiryDisabled")).getD false,
           lastSeen := (decFieldStr (jGetField fields "lastSeen")).getD "",
           machineKey := (decFieldStr (jGetField fields "machineKey")).getD "",
           name := (decFieldStr (jGetField fields "name")).getD "",
           nodeID := (decFieldStr (jGetField fields "nodeId")).getD "",
           nodeKey := (decFieldStr (jGetField fields "nodeKey")).getD "",
           os := (decFieldStr (jGetField fields "os")).getD "",
           tailnetLockError := (decFieldStr (jGetField fields "tailnetLockError")).getD "",
           tailnetLockKey := (decFieldStr (jGetField fields "tailnetLockKey")).getD "",
           updateAvailable := (decFieldBool (jGetField fields "updateAvailable")).getD false,
           user := (decFieldStr (jGetField fields "user")).getD "" }
  else none

/-- json.Unmarshal of a JSON document into the Go `Device` struct:
anything but an object is a decode error. -/
def decodeDevice (j : Json) : Option Device :=
  match j with
  | .obj fields => decodeDeviceFields fields
  | _ => none

/-- json.Marshal of a `*Device` map value: a nil pointer becomes JSON
`null`. -/
def encodeDevSlot : DevSlot → Json
  | none => Json.null
  | some d => encodeDevice d

/-- json.Unmarshal of a `*Device` map value: JSON `null` becomes a nil
pointer. -/
def decodeDevSlot (j : Json) : Option DevSlot :=
  match j with
  | .null => some none
  | j2 => (decodeDevice j2).map (fun d => some d)

/-- json.Marshal of the `IPToDevice` map as a JSON object (the stdlib
sorts the keys; key order is irrelevant to the mapping, so the list
order is kept). -/
def encodeIPMap (m : IPMap) : List (String × Json) :=
  m.map (fun p => (p.1, encodeDevSlot p.2))

/-- json.Unmarshal of a JSON object back into the `IPToDevice` map. -/
def decodeIPMapFields : List (String × Json) → Option IPMap
  | [] => some []
  | (k, v) :: rest => do
    let slot ← decodeDevSlot v
    let restMap ← decodeIPMapFields rest
    pure ((k, slot) :: restMap)

/-- json.Marshal of the Go `DeviceCache` struct: the persisted file
layout `\x7b "ip_to_device": ..., "last_update": ... \x7d`. -/
def encodeCache (c : DeviceCache) : Json :=
  .obj [("ip_to_device", .obj (encodeIPMap c.ipToDevice)),
        ("last_update", .str c.lastUpdate)]

/-- json.Unmarshal of a JSON document into a zero-valued `DeviceCache`
(as `loadDeviceCache` does after `Provision` initialised the cache
empty): missing fields keep the empty map / empty string. -/
def decodeCache (j : Json) : Option DeviceCache :=
  match j with
  | .obj fields => do
    let m ← (match jGetField fields "ip_to_device" with
             | none => some ([] : IPMap)
             | some .null => some ([] : IPMap)
             | some (.obj fs) => decodeIPMapFields fs
             | some _ => none)
    let lu ← decFieldStr (jGetField fields "last_update")
    pure { ipToDevice := m, lastUpdate := lu }
  | _ => none

/-- The content a later read can observe at a file path: a complete JSON
document, or bytes that are not a complete JSON document (`corrupt`,
e.g. the partial prefix left by an interrupted in-place write — a strict
prefix of a JSON document is never itself one). -/
inductive FileContent where
  | valid (doc : Json)
  | corrupt
deriving Repr

/-- The filesystem state the snapshot store reads and writes: file
contents by path, plus the set of existing directories. -/
structure FS where
  files : List (String × FileContent)
  dirs : List String
deriving Repr

/-- Read of a file: `none` models `os.IsNotExist`. -/
def lookupFile : List (String × FileContent) → String → Option FileContent
  | [], _ => none
  | (p, c) :: rest, path => if p = path then some c else lookupFile rest path

/-- Completed write of a file at a path (overwriting any previous
content). -/
def setFile (fs : FS) (path : String) (c : FileContent) : FS :=
  { fs with files := (path, c) :: fs.files.filter (fun q => ¬ q.1 = path) }

/-- Model of `filepath.Dir`, simplified: everything before the last
slash, or `.` when there is no slash. -/
def dirName (path : String) : String :=
  match path.splitOn "/" with
  | [] => "."
  | [_] => "."
  | p :: ps => String.intercalate "/" (List.dropLast (p :: ps))

/-- Model of `os.MkdirAll`: the directory exists afterwards (creation of
intermediate ancestors is not tracked separately). -/
def mkdirAll (fs : FS) (dir : String) : FS :=
  { fs with dirs := if dir ∈ fs.dirs then fs.dirs else dir :: fs.dirs }

/-- The configuration fields of the Go `TailscaleAuth` struct. -/
structure TailscaleConfig where
  apiKey : String
  tailnet : String
  headerPrefixStr : String
  cacheFile : String
deriving DecidableEq, Repr

/-- getCacheFilePath mirrors the Go func `getCacheFilePath`: both
branches of its `filepath.IsAbs` test return `t.CacheFile` unchanged. -/
def getCacheFilePath (t : TailscaleConfig) : String := t.cacheFile

/-- saveDeviceCache mirrors the Go func `saveDeviceCache`: create the
parent directory with `os.MkdirAll`, marshal the cache
(`json.MarshalIndent` cannot fail on strings, bools, slices and maps),
then write the file in place with `os.WriteFile`. -/
def saveDeviceCache (t : TailscaleConfig) (cache : DeviceCache) (fs : FS) :
    Except String Unit × FS :=
  let cacheFilePath := getCacheFilePath t
  let fs1 := mkdirAll fs (dirName cacheFilePath)
  (.ok (), setFile fs1 cacheFilePath (.valid (encodeCache cache)))

/-- The filesystem states a crash during `saveDeviceCache` can leave
behind: before anything, after `MkdirAll`, mid-`os.WriteFile` (the file
was opened with truncation and only partially written — a `corrupt`
content), and after the completed write. -/
def saveCrashStates (t : TailscaleConfig) (cache : DeviceCache) (fs : FS) : List FS :=
  let cacheFilePath := getCacheFilePath t
  let fs1 := mkdirAll fs (dirName cacheFilePath)
  [fs, fs1,
   setFile fs1 cacheFilePath .corrupt,
   setFile fs1 cacheFilePath (.valid (encodeCache cache))]

/-- loadDeviceCache mirrors the Go func `loadDeviceCache`: a missing
file keeps the pre-initialised cache (`cache0`, the empty cache in
`Provision`) and is not an error; unreadable or type-mismatched content
is the unmarshal error; otherwise the decoded cache replaces it. -/
def loadDeviceCache (t : TailscaleConfig) (cache0 : DeviceCache) (fs : FS) :
    Except String DeviceCache :=
  match lookupFile fs.files (getCacheFilePath t) with
  | none => .ok cache0
  | some .corrupt => .error "failed to unmarshal cache"
  | some (.valid j) =>
    match decodeCache j with
    | some c => .ok c
    | none => .error "failed to unmarshal cache"

/-! Concrete sample values used by witnesses and counterexamples. -/

/-- The cache `Provision` starts from: empty mapping, zero freshness
marker. -/
def emptyCache : DeviceCache := ⟨[], ""⟩

/-- A concrete device record (the `d1` device of the spec's concrete
scenario). -/
def sampleDevice : Device :=
  { addresses := ["100.64.0.5"], authorized := true,
    blocksIncomingConnections := false, clientVersion := "1.80.0",
    created := "2024-01-01T00:00:00Z", expires := "2025-01-01T00:00:00Z",
    hostname := "host1", id := "d1", isExternal := false,
    keyExpiryDisabled := false, lastSeen := "2024-06-01T00:00:00Z",
    machineKey := "mkey1", name := "dev1.example.ts.net", nodeID := "n1",
    nodeKey := "nkey1", os := "linux", tailnetLockError := "",
    tailnetLockKey := "", updateAvailable := false, user := "user@example.com" }

/-- A concrete one-entry snapshot holding `sampleDevice` under its own
address. -/
def sampleCache : DeviceCache :=
  ⟨[("100.64.0.5", some sampleDevice)], "Mon, 01 Jan 2024 00:00:00 GMT"⟩

/-- A concrete whois response. -/
def sampleWhoIs : WhoIsResponse :=
  { node :=
    { id := "n1", name := "dev1.example.ts.net", user := "user@example.com",
      tailnet := "example.com", hostname := "host1", clientVersion := "1.80.0",
      os := "linux", created := "2024-01-01T00:00:00Z",
      lastSeen := "2024-06-01T00:00:00Z", online := true, expired := false,
      keyExpiry := "2025-01-01T00:00:00Z", machineKey := "mkey1",
      nodeKey := "nkey1", addresses := ["100.64.0.5"], tags := ["tag:prod"] },
    userProfile :=
    { id := "u1", loginName := "user@example.com", displayName := "User",
      profilePicURL := "" },
    capMap := [] }

/-- A concrete module configuration. -/
def sampleConfig : TailscaleConfig :=
  ⟨"tskey-api-xyz", "example.com", "X-Tailscale-", "tailscale_devices.json"⟩

/-- An empty filesystem. -/
def emptyFS : FS := ⟨[], []⟩

/-! Helper lemmas about map reads and writes. -/

/-- Reading past a filtered-out key is unchanged. -/
theorem lookupIP_filter_ne (m : IPMap) (k a : String) (h : ¬ k = a) :
    lookupIP (m.filter (fun p => ¬ p.1 = k)) a = lookupIP m a := by
  induction m with
  | nil => rfl
  | cons q rest ih =>
    by_cases hq : q.1 = k
    · have hqa : ¬ q.1 = a := by rw [hq]; exact h
      have hf : List.filter (fun p => ¬ p.1 = k) (q :: rest)
          = List.filter (fun p => ¬ p.1 = k) rest := by
        simp [List.filter_cons, hq]
      rw [hf, ih]
      simp [lookupIP, hqa]
    · have hf : List.filter (fun p => ¬ p.1 = k) (q :: rest)
          = q :: List.filter (fun p => ¬ p.1 = k) rest := by
        simp [List.filter_cons, hq]
      rw [hf]
      simp only [lookupIP, ih]

/-- Reading a map after a write: the written key returns the new value,
any other key is unchanged. -/
theorem lookupIP_insertIP (m : IPMap) (k a : String) (v : DevSlot) :
    lookupIP (insertIP m k v) a = if k = a then some v else lookupIP m a := by
  by_cases hk : k = a
  · simp [insertIP, lookupIP, hk]
  · simp only [insertIP, lookupIP, if_neg hk]
    exact lookupIP_filter_ne m k a hk

/-! C1: cache hit returns the mapped record with zero remote calls. -/

/-- C1: for every address present in the current snapshot with a non-nil
record, `getDeviceByIP` returns that record, leaves the cache unchanged,
and performs zero remote directory calls. -/
theorem getDeviceByIP_cache_hit (cache : DeviceCache) (ip : String)
    (out : FetchOutcome DevicesResponse) (d : Device)
    (h : lookupIP cache.ipToDevice ip = some (some d)) :
    getDeviceByIP cache ip out = ⟨.ok d, cache, 0⟩ := by
  unfold getDeviceByIP
  rw [h]

/-- Witness for C1 at the spec's concrete scenario: the snapshot holds
`sampleDevice` under `100.64.0.5` and resolution returns it with zero
fetches even against a failing remote oracle. -/
theorem getDeviceByIP_cache_hit_witness :
    lookupIP sampleCache.ipToDevice "100.64.0.5" = some (some sampleDevice) ∧
    getDeviceByIP sampleCache "100.64.0.5" .netError = ⟨.ok sampleDevice, sampleCache, 0⟩ :=
  ⟨rfl, getDeviceByIP_cache_hit sampleCache "100.64.0.5" .netError sampleDevice rfl⟩

/-- On a miss (key absent, or present with a nil record) whose refresh
fails, `getDeviceByIP` wraps the refresh error and returns the
refresh-returned cache state. -/
theorem getDeviceByIP_miss_refresh_error (cache : DeviceCache) (ip : String)
    (out : FetchOutcome DevicesResponse) (m : String) (c : DeviceCache)
    (hmiss : lookupIP cache.ipToDevice ip = none ∨ lookupIP cache.ipToDevice ip = some none)
    (hr : refreshDeviceCache cache out = (.error m, c)) :
    getDeviceByIP cache ip out
      = ⟨.error (.refreshFailed ("failed to refresh device cache: " ++ m)), c, 1⟩ := by
  unfold getDeviceByIP
  rcases hmiss with h | h <;> rw [h, hr]

/-- On a miss whose refresh succeeds, `getDeviceByIP` re-checks the new
snapshot: a non-nil entry is returned, anything else is the not-found
error. -/
theorem getDeviceByIP_miss_refresh_ok (cache : DeviceCache) (ip : String)
    (out : FetchOutcome DevicesResponse) (u : Unit) (c : DeviceCache)
    (hmiss : lookupIP cache.ipToDevice ip = none ∨ lookupIP cache.ipToDevice ip = some none)
    (hr : refreshDeviceCache cache out = (.ok u, c)) :
    getDeviceByIP cache ip out =
      match lookupIP c.ipToDevice ip with
      | some (some d) => ⟨.ok d, c, 1⟩
      | _ => ⟨.error (.notFound ("device not found for IP " ++ ip ++ " even after cache refresh")), c, 1⟩ := by
  unfold getDeviceByIP
  rcases hmiss with h | h <;> rw [h, hr]

/-! C10: a present key holding a nil record is treated as a miss. -/

/-- C10: when the snapshot maps the address to a nil record, resolution
does not serve it from the cache: it performs one refresh, and any
successfully returned device is the non-nil record the refreshed
snapshot maps the address to. -/
theorem nil_cache_entry_treated_as_miss (cache : DeviceCache) (ip : String)
    (out : FetchOutcome DevicesResponse)
    (h : lookupIP cache.ipToDevice ip = some none) :
    (getDeviceByIP cache ip out).fetchCalls = 1 ∧
    ∀ d, (getDeviceByIP cache ip out).result = .ok d →
      lookupIP (getDeviceByIP cache ip out).cache.ipToDevice ip = some (some d) := by
  rcases hr : refreshDeviceCache cache out with ⟨r, c⟩
  cases r with
  | error m =>
    rw [getDeviceByIP_miss_refresh_error cache ip out m c (Or.inr h) hr]
    exact ⟨rfl, fun d2 hd2 => by cases hd2⟩
  | ok u =>
    rw [getDeviceByIP_miss_refresh_ok cache ip out u c (Or.inr h) hr]
    rcases hl : lookupIP c.ipToDevice ip with _ | sl
    · exact ⟨rfl, fun d2 hd2 => by cases hd2⟩
    · rcases sl with _ | d
      · exact ⟨rfl, fun d2 hd2 => by cases hd2⟩
      · refine ⟨rfl, ?_⟩
        intro d2 hd2
        cases hd2
        simp [hl]

/-- Witness for C10: a cache whose only entry is a nil record for
`100.64.0.5`; resolution refreshes (one fetch) and returns the freshly
fetched record for that address. -/
theorem nil_cache_entry_treated_as_miss_witness :
    lookupIP (DeviceCache.mk [("100.64.0.5", none)] "").ipToDevice "100.64.0.5" = some none ∧
    (getDeviceByIP ⟨[("100.64.0.5", none)], ""⟩ "100.64.0.5"
      (.response 200 "now" (.decoded ⟨[sampleDevice]⟩))).fetchCalls = 1 ∧
    (getDeviceByIP ⟨[("100.64.0.5", none)], ""⟩ "100.64.0.5"
      (.response 200 "now" (.decoded ⟨[sampleDevice]⟩))).result = .ok sampleDevice :=
  ⟨rfl,
   (nil_cache_entry_treated_as_miss ⟨[("100.64.0.5", none)], ""⟩ "100.64.0.5"
     (.response 200 "now" (.decoded ⟨[sampleDevice]⟩)) rfl).1,
   rfl⟩

/-! C2: miss, refresh, recheck; not-found is reported through the error
channel. -/

/-- Whether a resolution result is delivered through the Go error return
(second return value non-nil). -/
def isErrorResult : Except LookupErr Device → Bool
  | .error _ => true
  | .ok _ => false

/-- Counterexample to C2 as stated: with an empty snapshot and a
successful refresh that still lacks `100.64.0.9`, `getDeviceByIP`
reports not-found through the error return (a non-nil Go error), not as
a normal non-error outcome. -/
theorem notFound_is_error_cex :
    (getDeviceByIP emptyCache "100.64.0.9"
      (.response 200 "Tue, 02 Jan 2024 00:00:00 GMT" (.decoded ⟨[]⟩))).result
      = .error (.notFound "device not found for IP 100.64.0.9 even after cache refresh") ∧
    isErrorResult (getDeviceByIP emptyCache "100.64.0.9"
      (.response 200 "Tue, 02 Jan 2024 00:00:00 GMT" (.decoded ⟨[]⟩))).result = true :=
  ⟨rfl, rfl⟩

/-- C2 (amended): a miss triggers exactly one directory refresh; when
the refreshed snapshot maps the address to a non-nil record, that record
is returned; when the address is still absent (or nil), resolution
returns the distinct not-found error value through the same error
channel as other failures. -/
theorem getDeviceByIP_miss_refresh (cache : DeviceCache) (ip : String)
    (out : FetchOutcome DevicesResponse)
    (h : lookupIP cache.ipToDevice ip = none) :
    (getDeviceByIP cache ip out).fetchCalls = 1 ∧
    ∀ u c, refreshDeviceCache cache out = (.ok u, c) →
      (∀ d, lookupIP c.ipToDevice ip = some (some d) →
         (getDeviceByIP cache ip out).result = .ok d) ∧
      ((lookupIP c.ipToDevice ip = none ∨ lookupIP c.ipToDevice ip = some none) →
         (getDeviceByIP cache ip out).result =
           .error (.notFound ("device not found for IP " ++ ip ++ " even after cache refresh"))) := by
  rcases hr : refreshDeviceCache cache out with ⟨r, c⟩
  cases r with
  | error m =>
    rw [getDeviceByIP_miss_refresh_error cache ip out m c (Or.inl h) hr]
    refine ⟨rfl, ?_⟩
    intro u c2 hc2
    simp at hc2
  | ok u =>
    rw [getDeviceByIP_miss_refresh_ok cache ip out u c (Or.inl h) hr]
    refine ⟨?_, ?_⟩
    · rcases hl : lookupIP c.ipToDevice ip with _ | sl
      · rfl
      · rcases sl with _ | d <;> rfl
    · intro u2 c2 hc2
      have hcc : c = c2 := congrArg Prod.snd hc2
      subst hcc
      constructor
      · intro d hd
        simp [hd]
      · intro hmiss
        rcases hmiss with hl | hl <;> simp [hl]

/-- Witness for C2 (amended): empty snapshot, refresh returning
`sampleDevice`; resolving its address makes one fetch and returns it. -/
theorem getDeviceByIP_miss_refresh_witness :
    (getDeviceByIP emptyCache "100.64.0.5"
      (.response 200 "now" (.decoded ⟨[sampleDevice]⟩))).fetchCalls = 1 ∧
    (getDeviceByIP emptyCache "100.64.0.5"
      (.response 200 "now" (.decoded ⟨[sampleDevice]⟩))).result = .ok sampleDevice :=
  ⟨(getDeviceByIP_miss_refresh emptyCache "100.64.0.5"
      (.response 200 "now" (.decoded ⟨[sampleDevice]⟩)) rfl).1,
   ((getDeviceByIP_miss_refresh emptyCache "100.64.0.5"
      (.response 200 "now" (.decoded ⟨[sampleDevice]⟩)) rfl).2 ()
      ⟨[("100.64.0.5", some sampleDevice)], "now"⟩ rfl).1 sampleDevice rfl⟩

/-! C3: a failed refresh yields an error and leaves the snapshot and the
freshness marker unchanged. -/

/-- C3: whenever the remote fetch fails (transport/request error,
non-success HTTP status, or body-decode failure), `refreshDeviceCache`
returns an error with the cache record — mapping and freshness marker —
exactly as before, and a missing-address resolution propagates that as a
refresh-failure error, also leaving the cache unchanged. -/
theorem refresh_failure_leaves_cache_unchanged (cache : DeviceCache)
    (out : FetchOutcome DevicesResponse)
    (h : out = .netError
       ∨ (∃ s dh b, out = .response s dh b ∧ ¬ (200 ≤ s ∧ s < 300))
       ∨ (∃ s dh, out = .response s dh .malformed)) :
    (∃ m, refreshDeviceCache cache out = (.error m, cache)) ∧
    ∀ ip, (lookupIP cache.ipToDevice ip = none ∨ lookupIP cache.ipToDevice ip = some none) →
      (∃ m, (getDeviceByIP cache ip out).result = .error (.refreshFailed m)) ∧
      (getDeviceByIP cache ip out).cache = cache := by
  have hfail : ∃ m, refreshDeviceCache cache out = (.error m, cache) := by
    rcases h with h | ⟨s, dh, b, houtcome, hs⟩ | ⟨s, dh, houtcome⟩
    · exact ⟨"failed to make request", by rw [h]; rfl⟩
    · have hs200 : s ≠ 200 := by omega
      refine ⟨"API request failed with status " ++ toString s, ?_⟩
      rw [houtcome]
      simp [refreshDeviceCache, hs200]
    · by_cases hs200 : s = 200
      · refine ⟨"failed to unmarshal response", ?_⟩
        rw [houtcome, hs200]
        rfl
      · refine ⟨"API request failed with status " ++ toString s, ?_⟩
        rw [houtcome]
        simp [refreshDeviceCache, hs200]
  refine ⟨hfail, ?_⟩
  intro ip hmiss
  obtain ⟨m, hm⟩ := hfail
  rw [getDeviceByIP_miss_refresh_error cache ip out m cache hmiss hm]
  exact ⟨⟨"failed to refresh device cache: " ++ m, rfl⟩, rfl⟩

/-- Witness for C3: a 500 response against the one-entry sample cache;
the refresh errors and the cache — mapping and marker — is unchanged,
and resolving an absent address propagates the error. -/
theorem refresh_failure_leaves_cache_unchanged_witness :
    (∃ m, refreshDeviceCache sampleCache (.response 500 "" .malformed) = (.error m, sampleCache)) ∧
    (∃ m, (getDeviceByIP sampleCache "100.64.0.9" (.response 500 "" .malformed)).result
        = .error (.refreshFailed m)) ∧
    (getDeviceByIP sampleCache "100.64.0.9" (.response 500 "" .malformed)).cache = sampleCache := by
  have h := refresh_failure_leaves_cache_unchanged sampleCache (.response 500 "" .malformed)
    (Or.inr (Or.inl ⟨500, "", .malformed, rfl, by omega⟩))
  exact ⟨h.1, (h.2 "100.64.0.9" (Or.inl rfl)).1, (h.2 "100.64.0.9" (Or.inl rfl)).2⟩

/-! C4: per-request resolution problems never abort the request. -/

/-- C4: for every inbound request, `ServeHTTP` invokes the downstream
handler exactly once — whether the client IP is undeterminable, the
lookup fails (fetch error or not-found), or it succeeds — and on any
per-request resolution problem the identity headers are simply
omitted. -/
theorem serveHTTP_always_calls_next (prefixStr : String) (cache : DeviceCache)
    (out : FetchOutcome DevicesResponse) (r : Request) :
    (serveHTTP prefixStr cache out r).nextCalls = 1 ∧
    (getClientIP r = "" → (serveHTTP prefixStr cache out r).addedHeaders = []) ∧
    (∀ e, (getDeviceByIP cache (getClientIP r) out).result = .error e →
      (serveHTTP prefixStr cache out r).addedHeaders = []) := by
  by_cases hip : getClientIP r = ""
  · simp [serveHTTP, hip]
  · rcases hres : (getDeviceByIP cache (getClientIP r) out).result with e | d
    · simp [serveHTTP, hip, hres]
    · simp [serveHTTP, hip, hres]

/-- Witness for C4: a request with no forwarding headers and a
peer address, against an empty cache and a failing remote: the
downstream handler still runs once and no identity headers are added. -/
theorem serveHTTP_always_calls_next_witness :
    (serveHTTP "X-Tailscale-" emptyCache .netError ⟨"", "", "10.0.0.1:443"⟩).nextCalls = 1 ∧
    (serveHTTP "X-Tailscale-" emptyCache .netError ⟨"", "", "10.0.0.1:443"⟩).addedHeaders = [] :=
  ⟨(serveHTTP_always_calls_next "X-Tailscale-" emptyCache .netError ⟨"", "", "10.0.0.1:443"⟩).1,
   (serveHTTP_always_calls_next "X-Tailscale-" emptyCache .netError ⟨"", "", "10.0.0.1:443"⟩).2.2
     (.refreshFailed "failed to refresh device cache: failed to make request") rfl⟩

/-! C9: the annotators omit, rather than empty-emit, the pairs of empty
list fields. -/

/-- Appending a common front string is injective. -/
theorem strAppendLeftCancel (p a b : String) (h : p ++ a = p ++ b) : a = b := by
  apply String.ext
  have h2 := congrArg String.data h
  simp only [String.data_append] at h2
  exact List.append_cancel_left h2

/-- C9: a record whose address (or tag) list is empty yields an
annotator output containing no pair at all under the corresponding
header name — for `addDeviceHeaders` the `Device-Addresses` pair and for
`addUserHeaders` the `Node-Addresses` and `Node-Tags` pairs. -/
theorem annotator_empty_list_omits_pair (prefixStr : String) (device : Device)
    (whois : WhoIsResponse) :
    (device.addresses = [] →
      ∀ v, (prefixStr ++ "Device-Addresses", v) ∉ addDeviceHeaders prefixStr device) ∧
    (whois.node.addresses = [] →
      ∀ v, (prefixStr ++ "Node-Addresses", v) ∉ addUserHeaders prefixStr whois) ∧
    (whois.node.tags = [] →
      ∀ v, (prefixStr ++ "Node-Tags", v) ∉ addUserHeaders prefixStr whois) := by
  refine ⟨?_, ?_, ?_⟩
  · intro h v hmem
    simp [addDeviceHeaders, h] at hmem
    rcases hmem with ⟨h1, _⟩|⟨h1, _⟩|⟨h1, _⟩|⟨h1, _⟩|⟨h1, _⟩|⟨h1, _⟩|⟨h1, _⟩|⟨h1, _⟩|⟨h1, _⟩|⟨h1, _⟩ <;>
      exact absurd (strAppendLeftCancel _ _ _ h1) (by decide)
  · intro h v hmem
    by_cases ht : whois.node.tags.length > 0 <;> simp [addUserHeaders, h, ht] at hmem
    · rcases hmem with ⟨h1, _⟩|⟨h1, _⟩|⟨h1, _⟩|⟨h1, _⟩|⟨h1, _⟩|⟨h1, _⟩|⟨h1, _⟩|⟨h1, _⟩|⟨h1, _⟩|⟨h1, _⟩|⟨h1, _⟩ <;>
        exact absurd (strAppendLeftCancel _ _ _ h1) (by decide)
    · rcases hmem with ⟨h1, _⟩|⟨h1, _⟩|⟨h1, _⟩|⟨h1, _⟩|⟨h1, _⟩|⟨h1, _⟩|⟨h1, _⟩|⟨h1, _⟩|⟨h1, _⟩|⟨h1, _⟩ <;>
        exact absurd (strAppendLeftCancel _ _ _ h1) (by decide)
  · intro h v hmem
    by_cases ha : whois.node.addresses.length > 0 <;> simp [addUserHeaders, h, ha] at hmem
    · rcases hmem with ⟨h1, _⟩|⟨h1, _⟩|⟨h1, _⟩|⟨h1, _⟩|⟨h1, _⟩|⟨h1, _⟩|⟨h1, _⟩|⟨h1, _⟩|⟨h1, _⟩|⟨h1, _⟩|⟨h1, _⟩ <;>
        exact absurd (strAppendLeftCancel _ _ _ h1) (by decide)
    · rcases hmem with ⟨h1, _⟩|⟨h1, _⟩|⟨h1, _⟩|⟨h1, _⟩|⟨h1, _⟩|⟨h1, _⟩|⟨h1, _⟩|⟨h1, _⟩|⟨h1, _⟩|⟨h1, _⟩ <;>
        exact absurd (strAppendLeftCancel _ _ _ h1) (by decide)

/-- Witness for C9: a whois record with empty address and tag lists
emits neither the addresses pair nor the tags pair (and a device record
with no addresses emits no addresses pair). -/
theorem annotator_empty_list_omits_pair_witness :
    (("X-Tailscale-" ++ "Device-Addresses", "")
      ∉ addDeviceHeaders "X-Tailscale-" { sampleDevice with addresses := [] }) ∧
    (("X-Tailscale-" ++ "Node-Tags", "")
      ∉ addUserHeaders "X-Tailscale-" { sampleWhoIs with node := { sampleWhoIs.node with tags := [] } }) :=
  ⟨(annotator_empty_list_omits_pair "X-Tailscale-" { sampleDevice with addresses := [] }
      sampleWhoIs).1 rfl "",
   (annotator_empty_list_omits_pair "X-Tailscale-" sampleDevice
      { sampleWhoIs with node := { sampleWhoIs.node with tags := [] } }).2.2 rfl ""⟩

/-! C8: the remote fetches fail exactly on status ≠ 200, transport
error, or undecodable body; no retry. -/

/-- Counterexample to C8 as stated: a 201 response with a perfectly
decodable body is inside the 2xx range, yet both the bulk refresh and
the whois fetch report it as an error — the code compares against 200
exactly, not against the 2xx range. -/
theorem fetch_status_201_cex :
    (refreshDeviceCache emptyCache (.response 201 "" (.decoded ⟨[]⟩))).1
        = .error "API request failed with status 201" ∧
    (200 ≤ 201 ∧ 201 < 300) ∧
    getTailscaleUser (.response 201 "" (.decoded sampleWhoIs))
        = .error "API request failed with status 201" :=
  ⟨rfl, by omega, rfl⟩

/-- C8 (amended): both remote fetches report a fetch error exactly when
the transport fails, the HTTP status is not 200, or the body fails to
decode; a 200 response with a decodable body succeeds; and a resolution
performs at most one remote call (no automatic retry). -/
theorem fetch_error_iff_not_200_or_undecodable (cache : DeviceCache)
    (out : FetchOutcome DevicesResponse) (out2 : FetchOutcome WhoIsResponse) :
    ((∃ m, (refreshDeviceCache cache out).1 = .error m) ↔
      (out = .netError ∨ ∃ s dh b, out = .response s dh b ∧ (s ≠ 200 ∨ b = .malformed))) ∧
    ((∃ m, getTailscaleUser out2 = .error m) ↔
      (out2 = .netError ∨ ∃ s dh b, out2 = .response s dh b ∧ (s ≠ 200 ∨ b = .malformed))) ∧
    (∀ ip, (getDeviceByIP cache ip out).fetchCalls ≤ 1) := by
  refine ⟨?_, ?_, ?_⟩
  · cases out with
    | netError => simp [refreshDeviceCache]
    | response s dh b =>
      by_cases hs : s = 200
      · subst hs
        cases b with
        | malformed =>
          simp only [refreshDeviceCache]
          simp
          exact ⟨200, dh, .malformed, ⟨rfl, rfl, rfl⟩, Or.inr rfl⟩
        | decoded resp => simp [refreshDeviceCache]
      · simp [refreshDeviceCache, hs]
        exact ⟨s, dh, b, ⟨rfl, rfl, rfl⟩, Or.inl hs⟩
  · cases out2 with
    | netError => simp [getTailscaleUser]
    | response s dh b =>
      by_cases hs : s = 200
      · subst hs
        cases b with
        | malformed =>
          simp only [getTailscaleUser]
          simp
          exact ⟨200, dh, .malformed, ⟨rfl, rfl, rfl⟩, Or.inr rfl⟩
        | decoded w => simp [getTailscaleUser]
      · simp [getTailscaleUser, hs]
        exact ⟨s, dh, b, ⟨rfl, rfl, rfl⟩, Or.inl hs⟩
  · intro ip
    rcases hl : lookupIP cache.ipToDevice ip with _ | sl
    · rcases hr : refreshDeviceCache cache out with ⟨r, c⟩
      cases r with
      | error m =>
        rw [getDeviceByIP_miss_refresh_error cache ip out m c (Or.inl hl) hr]
      | ok u =>
        rw [getDeviceByIP_miss_refresh_ok cache ip out u c (Or.inl hl) hr]
        rcases lookupIP c.ipToDevice ip with _ | (_ | d) <;> exact Nat.le_refl 1
    · rcases sl with _ | d
      · rcases hr : refreshDeviceCache cache out with ⟨r, c⟩
        cases r with
        | error m =>
          rw [getDeviceByIP_miss_refresh_error cache ip out m c (Or.inr hl) hr]
        | ok u =>
          rw [getDeviceByIP_miss_refresh_ok cache ip out u c (Or.inr hl) hr]
          rcases lookupIP c.ipToDevice ip with _ | (_ | d) <;> exact Nat.le_refl 1
      · rw [getDeviceByIP_cache_hit cache ip out d hl]
        exact Nat.zero_le 1

/-- Witness for C8 (amended) at concrete outcomes: a transport failure
is an error, a 200 response with a decodable body is not, and a hot-path
hit makes at most one (here zero) remote calls. -/
theorem fetch_error_iff_not_200_or_undecodable_witness :
    (∃ m, (refreshDeviceCache emptyCache .netError).1 = .error m) ∧
    ¬ (∃ m, getTailscaleUser (.response 200 "" (.decoded sampleWhoIs)) = .error m) ∧
    (getDeviceByIP sampleCache "100.64.0.5" .netError).fetchCalls ≤ 1 := by
  refine ⟨?_, ?_, ?_⟩
  · exact (fetch_error_iff_not_200_or_undecodable emptyCache .netError .netError).1.mpr
      (Or.inl rfl)
  · intro hex
    have h := (fetch_error_iff_not_200_or_undecodable emptyCache .netError
      (.response 200 "" (.decoded sampleWhoIs))).2.1.mp hex
    rcases h with h | ⟨s, dh, b, hb, hcond⟩
    · cases h
    · cases hb
      rcases hcond with h2 | h2
      · exact h2 rfl
      · cases h2
  · exact (fetch_error_iff_not_200_or_undecodable sampleCache .netError .netError).2.2 "100.64.0.5"

/-! C7: a successful refresh rebuilds the mapping solely from the
fetched devices, and every key lies in its record's address list. -/

/-- Inserting one device under all of its addresses: reading any of
those addresses afterwards gives that device, anything else is
unchanged. -/
theorem lookupIP_foldl_addrs (d : Device) (addrs : List String) (m : IPMap) (a : String) :
    lookupIP (addrs.foldl (fun m2 x => insertIP m2 x (some d)) m) a
      = if a ∈ addrs then some (some d) else lookupIP m a := by
  induction addrs generalizing m with
  | nil => simp
  | cons x xs ih =>
    rw [List.foldl_cons, ih]
    by_cases hx : a ∈ xs
    · simp [hx, List.mem_cons]
    · by_cases hxa : x = a
      · simp [hx, hxa, lookupIP_insertIP, List.mem_cons]
      · have hax : ¬ a = x := fun hcl => hxa hcl.symm
        simp [hx, hxa, hax, lookupIP_insertIP, List.mem_cons]

/-- Reading the cache-population fold: either the address belongs to one
of the fetched devices (and maps to such a device), or the accumulator
is read unchanged. -/
theorem lookupIP_buildfold_cases (ds : List Device) (m : IPMap) (a : String) :
    (∃ d, d ∈ ds ∧ a ∈ d.addresses ∧
      lookupIP (ds.foldl (fun m2 d2 => d2.addresses.foldl (fun m3 x => insertIP m3 x (some d2)) m2) m) a
        = some (some d))
    ∨ ((∀ d ∈ ds, a ∉ d.addresses) ∧
      lookupIP (ds.foldl (fun m2 d2 => d2.addresses.foldl (fun m3 x => insertIP m3 x (some d2)) m2) m) a
        = lookupIP m a) := by
  induction ds generalizing m with
  | nil => exact Or.inr ⟨by simp, rfl⟩
  | cons d ds ih =>
    rw [List.foldl_cons]
    rcases ih (d.addresses.foldl (fun m3 x => insertIP m3 x (some d)) m) with
      ⟨d2, hmem, haddr, heq⟩ | ⟨hnone, heq⟩
    · exact Or.inl ⟨d2, List.mem_cons_of_mem _ hmem, haddr, heq⟩
    · rw [lookupIP_foldl_addrs] at heq
      by_cases ha : a ∈ d.addresses
      · rw [if_pos ha] at heq
        exact Or.inl ⟨d, List.mem_cons_self _ _, ha, heq⟩
      · rw [if_neg ha] at heq
        refine Or.inr ⟨?_, heq⟩
        intro d2 hd2
        rcases List.mem_cons.mp hd2 with h | h
        · rw [h]; exact ha
        · exact hnone d2 h

/-- C7: after every successful refresh the snapshot mapping is built
solely from the fetched devices — every key maps to a fetched device
whose address list contains the key, an address owned by no fetched
device is absent (so no entry of the previous snapshot survives), each
address maps to exactly one record, and the freshness marker is the
response `Date` header. -/
theorem refresh_rebuilds_mapping_invariant (cache : DeviceCache) (status : Nat)
    (dh : String) (resp : DevicesResponse) (u : Unit) (c : DeviceCache)
    (h : refreshDeviceCache cache (.response status dh (.decoded resp)) = (.ok u, c)) :
    (∀ a sl, lookupIP c.ipToDevice a = some sl →
       ∃ d, sl = some d ∧ a ∈ d.addresses ∧ d ∈ resp.devices) ∧
    (∀ a, (∀ d ∈ resp.devices, a ∉ d.addresses) → lookupIP c.ipToDevice a = none) ∧
    (∀ a d1 d2, lookupIP c.ipToDevice a = some (some d1) →
       lookupIP c.ipToDevice a = some (some d2) → d1 = d2) ∧
    c.lastUpdate = dh := by
  by_cases hs : status = 200
  · subst hs
    have hc : c = ⟨buildIPMap resp.devices, dh⟩ := by
      have h2 := congrArg Prod.snd h
      exact h2.symm
    subst hc
    refine ⟨?_, ?_, ?_, rfl⟩
    · intro a sl hsl
      simp only [buildIPMap] at hsl
      rcases lookupIP_buildfold_cases resp.devices [] a with ⟨d, hmem, haddr, heq⟩ | ⟨hnone, heq⟩
      · rw [heq] at hsl
        exact ⟨d, by injection hsl with h3; exact h3.symm, haddr, hmem⟩
      · rw [heq] at hsl
        cases hsl
    · intro a hnone
      simp only [buildIPMap]
      rcases lookupIP_buildfold_cases resp.devices [] a with ⟨d, hmem, haddr, heq⟩ | ⟨hn, heq⟩
      · exact absurd haddr (hnone d hmem)
      · exact heq
    · intro a d1 d2 h1 h2
      rw [h1] at h2
      injection h2 with h3
      injection h3
  · exfalso
    simp [refreshDeviceCache, hs] at h

/-- Witness for C7: refreshing with one fetched device (`sampleDevice`)
yields a snapshot where its address maps to it and the marker is the
response date. -/
theorem refresh_rebuilds_mapping_invariant_witness :
    (∃ d, (some sampleDevice : DevSlot) = some d ∧ "100.64.0.5" ∈ d.addresses ∧
       d ∈ (DevicesResponse.mk [sampleDevice]).devices) ∧
    (DeviceCache.mk [("100.64.0.5", some sampleDevice)] "now").lastUpdate = "now" :=
  ⟨(refresh_rebuilds_mapping_invariant emptyCache 200 "now" ⟨[sampleDevice]⟩ ()
      ⟨[("100.64.0.5", some sampleDevice)], "now"⟩ rfl).1 "100.64.0.5" (some sampleDevice) rfl,
   (refresh_rebuilds_mapping_invariant emptyCache 200 "now" ⟨[sampleDevice]⟩ ()
      ⟨[("100.64.0.5", some sampleDevice)], "now"⟩ rfl).2.2.2⟩

/-! Store lemmas: reading back writes, directory creation, and the
JSON round trip. -/

/-- Reading the path just written returns the written content. -/
theorem lookupFile_setFile (fs : FS) (p : String) (c : FileContent) :
    lookupFile (setFile fs p c).files p = some c := by
  simp [setFile, lookupFile]

/-- After `mkdirAll` the directory exists. -/
theorem mem_dirs_mkdirAll (fs : FS) (dir : String) : dir ∈ (mkdirAll fs dir).dirs := by
  by_cases hd : dir ∈ fs.dirs <;> simp [mkdirAll, hd]

/-- Decoding an encoded string array gives back the strings. -/
theorem decStrElems_map (xs : List String) :
    decStrElems (xs.map (fun s => Json.str s)) = some xs := by
  induction xs with
  | nil => rfl
  | cons x xs ih => simp [decStrElems, ih]

/-- The `Device` JSON layout round-trips. -/
theorem decodeDevice_encodeDevice (d : Device) : decodeDevice (encodeDevice d) = some d := by
  simp [encodeDevice, decodeDevice, decodeDeviceFields, jGetField, decFieldStr, decFieldBool,
    decFieldStrList, decStrElems_map]

/-- The `*Device` map-value layout (nil pointer as `null`) round-trips. -/
theorem decodeDevSlot_encodeDevSlot (sl : DevSlot) :
    decodeDevSlot (encodeDevSlot sl) = some sl := by
  cases sl with
  | none => rfl
  | some d =>
    show (decodeDevice (encodeDevice d)).map (fun d2 => some d2) = some (some d)
    rw [decodeDevice_encodeDevice]
    rfl

/-- The `IPToDevice` object layout round-trips. -/
theorem decodeIPMapFields_encodeIPMap (m : IPMap) :
    decodeIPMapFields (encodeIPMap m) = some m := by
  induction m with
  | nil => rfl
  | cons p rest ih =>
    have hstep : encodeIPMap (p :: rest) = (p.1, encodeDevSlot p.2) :: encodeIPMap rest := rfl
    rw [hstep]
    simp [decodeIPMapFields, decodeDevSlot_encodeDevSlot, ih]

/-- The persisted `DeviceCache` file layout round-trips. -/
theorem decodeCache_encodeCache (c : DeviceCache) : decodeCache (encodeCache c) = some c := by
  simp [encodeCache, decodeCache, jGetField, decFieldStr, decodeIPMapFields_encodeIPMap]

/-! C5: save creates the parent directory, but the write is direct and
in place, so a crash mid-write can expose an unreadable file. -/

/-- Counterexample to C5 as stated: among the crash-observable states of
`saveDeviceCache` is one where the cache path holds the partial content
of an interrupted in-place write, and the next `loadDeviceCache` fails
on it rather than reading a complete snapshot — the write is not
write-then-rename atomic. -/
theorem save_crash_unreadable_cex :
    setFile (mkdirAll emptyFS (dirName (getCacheFilePath sampleConfig)))
        (getCacheFilePath sampleConfig) .corrupt
      ∈ saveCrashStates sampleConfig sampleCache emptyFS ∧
    loadDeviceCache sampleConfig emptyCache
        (setFile (mkdirAll emptyFS (dirName (getCacheFilePath sampleConfig)))
          (getCacheFilePath sampleConfig) .corrupt)
      = .error "failed to unmarshal cache" :=
  ⟨List.mem_cons_of_mem _ (List.mem_cons_of_mem _ (List.mem_cons_self _ _)), rfl⟩

/-- C5 (amended): `saveDeviceCache` creates any missing parent directory
of the configured path and a completed save leaves the encoded snapshot
readable there; but the write is a direct in-place truncating
`os.WriteFile`, so among the crash-observable states is one where the
cache path holds an unreadable partial file and the next load returns
the unmarshal error. -/
theorem saveDeviceCache_mkdir_and_direct_write (t : TailscaleConfig)
    (cache : DeviceCache) (fs : FS) (c0 : DeviceCache) :
    dirName (getCacheFilePath t) ∈ ((saveDeviceCache t cache fs).2).dirs ∧
    lookupFile ((saveDeviceCache t cache fs).2).files (getCacheFilePath t)
      = some (.valid (encodeCache cache)) ∧
    setFile (mkdirAll fs (dirName (getCacheFilePath t))) (getCacheFilePath t) .corrupt
      ∈ saveCrashStates t cache fs ∧
    loadDeviceCache t c0
        (setFile (mkdirAll fs (dirName (getCacheFilePath t))) (getCacheFilePath t) .corrupt)
      = .error "failed to unmarshal cache" := by
  refine ⟨?_, ?_, ?_, ?_⟩
  · exact mem_dirs_mkdirAll fs (dirName (getCacheFilePath t))
  · exact lookupFile_setFile _ _ _
  · exact List.mem_cons_of_mem _ (List.mem_cons_of_mem _ (List.mem_cons_self _ _))
  · simp [loadDeviceCache, lookupFile_setFile]

/-! C6: save followed by load round-trips the snapshot. -/

/-- C6: for a non-empty snapshot, saving it and loading the file back
yields exactly that snapshot — in particular an equal address-to-record
mapping and an equal freshness marker. -/
theorem save_load_roundtrip (t : TailscaleConfig) (S : DeviceCache) (fs : FS)
    (_h : S.ipToDevice ≠ []) :
    loadDeviceCache t emptyCache ((saveDeviceCache t S fs).2) = .ok S ∧
    (∀ a, ∀ S2, loadDeviceCache t emptyCache ((saveDeviceCache t S fs).2) = .ok S2 →
       lookupIP S2.ipToDevice a = lookupIP S.ipToDevice a ∧ S2.lastUpdate = S.lastUpdate) := by
  have hload : loadDeviceCache t emptyCache ((saveDeviceCache t S fs).2) = .ok S := by
    have hsave : (saveDeviceCache t S fs).2
        = setFile (mkdirAll fs (dirName (getCacheFilePath t))) (getCacheFilePath t)
            (.valid (encodeCache S)) := rfl
    rw [hsave]
    simp [loadDeviceCache, lookupFile_setFile, decodeCache_encodeCache]
  refine ⟨hload, ?_⟩
  intro a S2 h2
  rw [hload] at h2
  injection h2 with h3
  rw [h3]
  exact ⟨rfl, rfl⟩

/-- Witness for C6 at the one-entry sample snapshot. -/
theorem save_load_roundtrip_witness :
    sampleCache.ipToDevice ≠ [] ∧
    loadDeviceCache sampleConfig emptyCache
      ((saveDeviceCache sampleConfig sampleCache emptyFS).2) = .ok sampleCache :=
  ⟨by simp [sampleCache],
   (save_load_roundtrip sampleConfig sampleCache emptyFS (by simp [sampleCache])).1⟩

end CaddyTailscaleAuth
